import Mathlib

/-! EV-Forum authentication controller

A shallow embedding of `backend/src/controllers/authController.js`.

Modelling conventions.

* A request body field is an `Option String`: `none` is an absent field
  (`undefined` after destructuring), `some s` a JSON string.
* The `users` table is a list of rows in storage order, together with the next
  auto-increment id.  `SELECT ... LIMIT 1` returns the first matching row.
  SQL `=` on text columns is exact string equality.
* Time is a natural number of milliseconds; `NOW()` and `Date.now()` read the
  same clock, supplied per call by the environment.
* `bcrypt`, `jsonwebtoken` and `crypto.randomBytes` are library calls: the two
  hash functions and the signer are parameters (`Lib`), the salt and the random
  bytes are drawn per call from the environment (`Env`).
* The database calls and `bcrypt` return normally.  `jwt.sign` throws when its
  secret is `undefined` or empty; `login` then answers 500 from its `catch`.
  The other `catch` branches are not reached.
* Every handler returns its HTTP response, the table after the call, and the
  list of SQL statements it issued, in order.  A `SELECT` returns whole rows;
  the handlers read only the columns the statement names.
-/

namespace EVForum

/-! ## Strings and the email pattern -/

/-- Value of the JavaScript `length` property of a string: the number of
UTF-16 code units. -/
def jsLength (s : String) : Nat :=
  s.toList.foldl (fun n c => n + (if c.toNat < 0x10000 then 1 else 2)) 0

/-- Characters matched by `\s` in a JavaScript regular expression. -/
def isJsWhitespace (c : Char) : Bool :=
  let n := c.toNat
  n == 0x09 || n == 0x0A || n == 0x0B || n == 0x0C || n == 0x0D || n == 0x20 ||
  n == 0xA0 || n == 0x1680 || (0x2000 ≤ n && n ≤ 0x200A) || n == 0x2028 ||
  n == 0x2029 || n == 0x202F || n == 0x205F || n == 0x3000 || n == 0xFEFF

/-- The character class `[^\s@]`. -/
def notSpaceNorAt (c : Char) : Bool :=
  !(isJsWhitespace c) && c != '@'

/-- One item of an anchored pattern: a single character test, or a test under
the `+` quantifier. -/
inductive Item where
  | one (p : Char → Bool)
  | plus (p : Char → Bool)

/-- Backtracking match of a sequence of items against the whole remaining
input (the pattern is anchored at both ends by `^` and `$`). -/
def matchItems : List Item → List Char → Bool
  | [], s => s.isEmpty
  | _ :: _, [] => false
  | Item.one p :: r, c :: s => p c && matchItems r s
  | Item.plus p :: r, c :: s =>
      p c && (matchItems (Item.plus p :: r) s || matchItems r s)

/-- The pattern `^[^\s@]+@[^\s@]+\.[^\s@]+$`. -/
def emailPattern : List Item :=
  [Item.plus notSpaceNorAt, Item.one (fun c => c == '@'),
   Item.plus notSpaceNorAt, Item.one (fun c => c == '.'),
   Item.plus notSpaceNorAt]

/-- The function `isValidEmail(email)`. -/
def isValidEmail (email : String) : Bool :=
  matchItems emailPattern email.toList

/-- JavaScript `!v` for a body field that is absent or a string. -/
def falsy : Option String → Bool
  | none => true
  | some s => s == ""

/-- The string held by a field already known to be present. -/
def str (v : Option String) : String := v.getD ""

/-! ## The users table -/

/-- A row of the `users` table. -/
structure User where
  id : Nat
  username : String
  first_name : String
  last_name : String
  email : String
  password : String
  reset_token : Option String
  reset_token_expires : Option Nat
  deriving DecidableEq, Repr

/-- The `users` table: rows in storage order and the next auto-increment id. -/
structure Db where
  users : List User
  nextId : Nat
  deriving DecidableEq, Repr

/-- The SQL statements the controller issues, with their bound parameters. -/
inductive Query where
  | selectByEmailOrUsername (email username : String)
  | insertUser (username first_name last_name email password : String)
  | selectByEmail (email : String)
  | updateResetToken (token : String) (expires : Nat) (id : Nat)
  | selectByResetToken (token : String)
  | updatePassword (password : String) (id : Nat)
  deriving DecidableEq, Repr

/-- Rows returned by `SELECT ... WHERE p LIMIT 1`. -/
def selectLimit1 (p : User → Bool) (users : List User) : List User :=
  (users.filter p).take 1

/-- Statement `SELECT id FROM users WHERE email = ? OR username = ? LIMIT 1`. -/
def Db.selectByEmailOrUsername (db : Db) (email username : String) : List User :=
  selectLimit1 (fun u => u.email == email || u.username == username) db.users

/-- Statement `SELECT ... FROM users WHERE email = ? LIMIT 1`, issued by `login`
and `forgotPassword` with different column lists. -/
def Db.selectByEmail (db : Db) (email : String) : List User :=
  selectLimit1 (fun u => u.email == email) db.users

/-- The condition `reset_token = ? AND reset_token_expires > NOW()` on a row.
A comparison with `NULL` is not true. -/
def tokenLive (now : Nat) (token : String) (u : User) : Bool :=
  u.reset_token == some token &&
    (match u.reset_token_expires with
      | some e => decide (now < e)
      | none => false)

/-- Statement `SELECT id FROM users WHERE reset_token = ? AND
reset_token_expires > NOW() LIMIT 1`. -/
def Db.selectByResetToken (db : Db) (now : Nat) (token : String) : List User :=
  selectLimit1 (tokenLive now token) db.users

/-- Modelled from the spec: the schema of the `users` table is not in the
source.  `INSERT INTO users (username, first_name, last_name, email, password)
VALUES (?, ?, ?, ?, ?)` stores a row with a fresh unique id and with the two
reset columns, which the statement does not name, absent. -/
def Db.insertUser (db : Db) (username first_name last_name email password : String) : Db :=
  { users := db.users ++
      [{ id := db.nextId, username := username, first_name := first_name,
         last_name := last_name, email := email, password := password,
         reset_token := none, reset_token_expires := none }],
    nextId := db.nextId + 1 }

/-- Statement `UPDATE users SET reset_token = ?, reset_token_expires = ? WHERE
id = ?`. -/
def Db.updateResetToken (db : Db) (token : String) (expires : Nat) (id : Nat) : Db :=
  { db with users := db.users.map (fun u =>
      if u.id = id then
        { u with reset_token := some token, reset_token_expires := some expires }
      else u) }

/-- Statement `UPDATE users SET password = ?, reset_token = NULL,
reset_token_expires = NULL WHERE id = ?`. -/
def Db.updatePassword (db : Db) (password : String) (id : Nat) : Db :=
  { db with users := db.users.map (fun u =>
      if u.id = id then
        { u with password := password, reset_token := none, reset_token_expires := none }
      else u) }

/-! ## Libraries and environment -/

/-- The library functions the controller calls. -/
structure Lib where
  /-- Call `bcrypt.hash(password, 10)` with the salt drawn for this call. -/
  hash : String → String → String
  /-- Call `bcrypt.compare(password, stored)`. -/
  compare : String → String → Bool
  /-- Call `jwt.sign(payload, secret, options)` with payload id and username,
  the secret, and the issue time. -/
  sign : Nat → String → String → Nat → String

/-- What a single call reads from outside the table. -/
structure Env where
  /-- Current time in milliseconds. -/
  now : Nat
  /-- Value of `crypto.randomBytes(32).toString("hex")` in this call. -/
  randomHex : String
  /-- Salt generated by `bcrypt.hash` in this call. -/
  salt : String
  /-- Value of `process.env.NODE_ENV`. -/
  NODE_ENV : Option String
  /-- Value of `process.env.JWT_SECRET`: `none` when the variable is unset. -/
  JWT_SECRET : Option String

/-! ## Responses -/

/-- Status and JSON body of a response.  A body field whose value is
`undefined` is not serialised, so it is `none`. -/
structure Response where
  status : Nat
  error : Option String
  message : String
  token : Option String
  resetToken : Option String
  deriving DecidableEq, Repr

/-- Result of running a handler: the response, the table afterwards, and the
statements issued. -/
structure Outcome where
  res : Response
  db : Db
  queries : List Query
  deriving DecidableEq, Repr

/-- Body `res.status(400).json` with error "Bad Request". -/
def badRequest (message : String) : Response :=
  { status := 400, error := some "Bad Request", message := message,
    token := none, resetToken := none }

/-- The 401 response of `login`. -/
def unauthorized : Response :=
  { status := 401, error := some "Unauthorized",
    message := "Invalid username or password", token := none, resetToken := none }

/-- The 500 response of every `catch` branch. -/
def internalError : Response :=
  { status := 500, error := some "Internal Server Error",
    message := "An unexpected error occurred.", token := none, resetToken := none }

/-- The generic message of `forgotPassword`. -/
def resetLinkSent : String :=
  "If an account with that email exists, a password reset link has been sent."

/-! ## Running a statement -/

/-- The call `db.query(sql, params)`: the rows returned and the table
afterwards.  `now` is the value of `NOW()`. -/
def Db.query (db : Db) (now : Nat) : Query → List User × Db
  | Query.selectByEmailOrUsername email username =>
      (db.selectByEmailOrUsername email username, db)
  | Query.insertUser username first_name last_name email password =>
      ([], db.insertUser username first_name last_name email password)
  | Query.selectByEmail email => (db.selectByEmail email, db)
  | Query.updateResetToken token expires id => ([], db.updateResetToken token expires id)
  | Query.selectByResetToken token => (db.selectByResetToken now token, db)
  | Query.updatePassword password id => ([], db.updatePassword password id)

/-! ## The handlers -/

/-- Handler `register` for `POST /api/user/register`. -/
def register (lib : Lib) (env : Env) (db : Db)
    (username first_name last_name email password : Option String) : Outcome :=
  if falsy username || falsy first_name || falsy last_name || falsy email ||
      falsy password then
    { res := badRequest "Please provide all required fields", db := db, queries := [] }
  else if !isValidEmail (str email) then
    { res := badRequest "Please provide a valid email address", db := db, queries := [] }
  else if jsLength (str password) < 8 then
    { res := badRequest "Password must be at least 8 characters", db := db, queries := [] }
  else
    let q1 := Query.selectByEmailOrUsername (str email) (str username)
    let r1 := db.query env.now q1
    if r1.1.length > 0 then
      { res := { status := 409, error := some "Conflict", message := "User already exists",
                 token := none, resetToken := none },
        db := r1.2, queries := [q1] }
    else
      let hashedPassword := lib.hash (str password) env.salt
      let q2 := Query.insertUser (str username) (str first_name) (str last_name)
        (str email) hashedPassword
      let r2 := r1.2.query env.now q2
      { res := { status := 201, error := none, message := "User registered successfully",
                 token := none, resetToken := none },
        db := r2.2, queries := [q1, q2] }

/-- Handler `login` for `POST /api/user/login`.  The call `jwt.sign` throws
"secretOrPrivateKey must have a value" on a secret that is `undefined` or
empty, and the `catch` answers 500. -/
def login (lib : Lib) (env : Env) (db : Db) (email password : Option String) : Outcome :=
  if falsy email || falsy password then
    { res := badRequest "Please provide all required fields", db := db, queries := [] }
  else if !isValidEmail (str email) then
    { res := badRequest "Please provide a valid email address", db := db, queries := [] }
  else
    let q1 := Query.selectByEmail (str email)
    let r1 := db.query env.now q1
    match r1.1.head? with
    | none => { res := unauthorized, db := r1.2, queries := [q1] }
    | some user =>
      let valid := lib.compare (str password) user.password
      if !valid then
        { res := unauthorized, db := r1.2, queries := [q1] }
      else if falsy env.JWT_SECRET then
        { res := internalError, db := r1.2, queries := [q1] }
      else
        let token := lib.sign user.id user.username (str env.JWT_SECRET) env.now
        { res := { status := 200, error := none, message := "User login successful",
                   token := some token, resetToken := none },
          db := r1.2, queries := [q1] }

/-- Handler `forgotPassword` for `POST /api/user/forgot-password`. -/
def forgotPassword (env : Env) (db : Db) (email : Option String) : Outcome :=
  if falsy email then
    { res := badRequest "Please provide an email address", db := db, queries := [] }
  else if !isValidEmail (str email) then
    { res := badRequest "Please provide a valid email address", db := db, queries := [] }
  else
    let q1 := Query.selectByEmail (str email)
    let r1 := db.query env.now q1
    match r1.1.head? with
    | none =>
      { res := { status := 200, error := none, message := resetLinkSent,
                 token := none, resetToken := none },
        db := r1.2, queries := [q1] }
    | some user =>
      let resetToken := env.randomHex
      let resetTokenExpires := env.now + 3600000
      let q2 := Query.updateResetToken resetToken resetTokenExpires user.id
      let r2 := r1.2.query env.now q2
      { res := { status := 200, error := none, message := resetLinkSent,
                 token := none,
                 resetToken :=
                   if env.NODE_ENV = some "development" then some resetToken else none },
        db := r2.2, queries := [q1, q2] }

/-- Handler `resetPassword` for `POST /api/user/reset-password`. -/
def resetPassword (lib : Lib) (env : Env) (db : Db)
    (token newPassword : Option String) : Outcome :=
  if falsy token || falsy newPassword then
    { res := badRequest "Please provide reset token and new password", db := db,
      queries := [] }
  else if jsLength (str newPassword) < 8 then
    { res := badRequest "Password must be at least 8 characters", db := db, queries := [] }
  else
    let q1 := Query.selectByResetToken (str token)
    let r1 := db.query env.now q1
    match r1.1.head? with
    | none =>
      { res := badRequest "Invalid or expired reset token", db := r1.2, queries := [q1] }
    | some user =>
      let hashedPassword := lib.hash (str newPassword) env.salt
      let q2 := Query.updatePassword hashedPassword user.id
      let r2 := r1.2.query env.now q2
      { res := { status := 200, error := none,
                 message := "Password has been reset successfully",
                 token := none, resetToken := none },
        db := r2.2, queries := [q1, q2] }

/-! ## Sequences of calls -/

/-- A request to one of the four handlers, with its body fields. -/
inductive Call where
  | register (username first_name last_name email password : Option String)
  | login (email password : Option String)
  | forgotPassword (email : Option String)
  | resetPassword (token newPassword : Option String)

/-- Route a request to its handler. -/
def handle (lib : Lib) (env : Env) (db : Db) : Call → Outcome
  | Call.register username first_name last_name email password =>
      register lib env db username first_name last_name email password
  | Call.login email password => login lib env db email password
  | Call.forgotPassword email => forgotPassword env db email
  | Call.resetPassword token newPassword => resetPassword lib env db token newPassword

/-- Whether a request goes to `forgotPassword`. -/
def Call.isForgotPassword : Call → Bool
  | Call.forgotPassword _ => true
  | _ => false

/-- The table after a sequence of calls, each in its own environment. -/
def runCalls (lib : Lib) : Db → List (Env × Call) → Db
  | db, [] => db
  | db, (env, c) :: rest => runCalls lib (handle lib env db c).db rest

/-- The empty `users` table. -/
def Db.empty : Db := { users := [], nextId := 1 }

/-- Tables reachable from the empty one by any sequence of calls, each in its
own environment. -/
inductive Reachable (lib : Lib) : Db → Prop where
  | empty : Reachable lib Db.empty
  | step (db : Db) (env : Env) (c : Call) :
      Reachable lib db → Reachable lib (handle lib env db c).db

/-- A record has its two reset fields both present or both absent. -/
def User.paired (u : User) : Prop :=
  u.reset_token.isSome = u.reset_token_expires.isSome

/-! ## Sample data -/

/-- A library instance with a transparent hash: `hash` stores the password as
is and `compare` is string equality, so `compare q (hash p salt)` holds exactly
when `p = q`. -/
def sampleLib : Lib :=
  { hash := fun p _ => p
    compare := fun q h => q == h
    sign := fun _ username _ _ => username }

/-- A reset token: 32 bytes in hexadecimal. -/
def sampleToken : String :=
  "5f1d7a0c93b2e846a1f00d3c7b9e52486d0a1c3e5f7092b4d6f8a1c3e5079b2d"

/-- A development environment at time 1000. -/
def devEnv : Env :=
  { now := 1000
    randomHex := sampleToken
    salt := "salt"
    NODE_ENV := some "development"
    JWT_SECRET := some "secret" }

/-- A production environment at time 2000 that draws the same random bytes as
`devEnv`. -/
def prodEnv : Env :=
  { devEnv with now := 2000, NODE_ENV := some "production" }

/-- The record of alice right after she registered with password
"password1". -/
def alice : User :=
  { id := 1, username := "alice", first_name := "Alice", last_name := "A",
    email := "a@x.com", password := "password1",
    reset_token := none, reset_token_expires := none }

/-- A table with the single user alice. -/
def aliceDb : Db := { users := [alice], nextId := 2 }

/-- An environment at time 3000, within the hour after `devEnv` and `prodEnv`. -/
def laterEnv : Env :=
  { devEnv with now := 3000, salt := "salt2" }

/-- The environment `laterEnv` with an empty `JWT_SECRET`. -/
def noSecretEnv : Env :=
  { laterEnv with JWT_SECRET := some "" }

/-- An environment more than one hour after `devEnv`. -/
def staleEnv : Env :=
  { devEnv with now := 3601000 }

/-- The record of alice after `forgotPassword` in `devEnv`: she holds
`sampleToken`, which expires one hour after time 1000. -/
def aliceWithToken : User :=
  { alice with reset_token := some sampleToken, reset_token_expires := some 3601000 }

/-- The record of bob right after he registered with password "password2". -/
def bob : User :=
  { id := 2, username := "bob", first_name := "Bob", last_name := "B",
    email := "b@x.com", password := "password2",
    reset_token := none, reset_token_expires := none }

/-- The record of bob after `forgotPassword` in `prodEnv`, which drew the same
random bytes: he holds `sampleToken` too, expiring one hour after time 2000. -/
def bobWithToken : User :=
  { bob with reset_token := some sampleToken, reset_token_expires := some 3602000 }

/-- A table with alice holding an unused token. -/
def aliceTokenDb : Db := { users := [aliceWithToken], nextId := 2 }

/-- A table with alice, who holds an unused token, and bob, who holds none. -/
def twoUsersDb : Db := { users := [aliceWithToken, bob], nextId := 3 }

/-- A table with alice and bob holding the same unused token. -/
def sharedTokenDb : Db := { users := [aliceWithToken, bobWithToken], nextId := 3 }

/-- Two records are distinct users: they differ in id, in email and in
username. -/
def User.distinct (a b : User) : Prop :=
  a.id ≠ b.id ∧ a.email ≠ b.email ∧ a.username ≠ b.username

/-- The data-model invariants of the table: ids are below the next
auto-increment id, and id, email and username are each unique. -/
def Db.WF (db : Db) : Prop :=
  (∀ u ∈ db.users, u.id < db.nextId) ∧ db.users.Pairwise User.distinct

/-! ## Basic facts about the embedding -/

theorem head?_selectLimit1 (p : User → Bool) (us : List User) :
    (selectLimit1 p us).head? = us.find? p := by
  induction us with
  | nil => rfl
  | cons u us ih =>
    unfold selectLimit1 at ih ⊢
    by_cases h : p u = true <;> simp [List.filter, List.find?, h, ih]

theorem length_selectLimit1_pos (p : User → Bool) (us : List User) :
    0 < (selectLimit1 p us).length ↔ ∃ u ∈ us, p u = true := by
  unfold selectLimit1
  rw [List.length_take]
  constructor
  · intro h
    have h1 : 0 < (us.filter p).length := by omega
    obtain ⟨u, hu⟩ := List.exists_mem_of_length_pos h1
    exact ⟨u, (List.mem_filter.mp hu).1, (List.mem_filter.mp hu).2⟩
  · rintro ⟨u, hu, hp⟩
    have h1 : 0 < (us.filter p).length :=
      List.length_pos_of_mem (List.mem_filter.mpr ⟨hu, hp⟩)
    omega

@[simp] theorem falsy_some (s : String) : falsy (some s) = (s == "") := rfl

@[simp] theorem falsy_none : falsy none = true := rfl

@[simp] theorem str_some (s : String) : str (some s) = s := rfl

/-! ## Login and forgot-password do not reveal registration -/

/-- C4. Two well-formed login requests against the same table, the first with
an email that no record has, the second with an email whose record (the one the
lookup returns) does not verify the password, get the same response: status
401 and body error "Unauthorized", message "Invalid username or password". -/
theorem login_unknown_email_eq_wrong_password (lib : Lib) (env1 env2 : Env) (db : Db)
    (e1 p1 e2 p2 : String) (u : User)
    (he1 : e1 ≠ "") (hv1 : isValidEmail e1 = true) (hp1 : p1 ≠ "")
    (he2 : e2 ≠ "") (hv2 : isValidEmail e2 = true) (hp2 : p2 ≠ "")
    (hno : ∀ v ∈ db.users, v.email ≠ e1)
    (hu : db.users.find? (fun v => v.email == e2) = some u)
    (hbad : lib.compare p2 u.password = false) :
    (login lib env1 db (some e1) (some p1)).res =
      (login lib env2 db (some e2) (some p2)).res ∧
    (login lib env1 db (some e1) (some p1)).res =
      { status := 401, error := some "Unauthorized",
        message := "Invalid username or password", token := none, resetToken := none } := by
  have h1 : db.users.find? (fun v => v.email == e1) = none := by
    rw [List.find?_eq_none]
    intro v hv
    simpa using hno v hv
  have r1 : (login lib env1 db (some e1) (some p1)).res = unauthorized := by
    simp [login, he1, hp1, hv1, Db.query, Db.selectByEmail, head?_selectLimit1, h1]
  have r2 : (login lib env2 db (some e2) (some p2)).res = unauthorized := by
    simp [login, he2, hp2, hv2, Db.query, Db.selectByEmail, head?_selectLimit1, hu, hbad]
  exact ⟨r1.trans r2.symm, r1⟩

/-- Witness for C4: on the table holding alice, a login for an unknown email
and a login for alice with a wrong password get the same 401 response. -/
theorem login_unknown_email_eq_wrong_password_witness :
    (login sampleLib devEnv aliceDb (some "nobody@x.com") (some "password1")).res =
      (login sampleLib prodEnv aliceDb (some "a@x.com") (some "wrongpass")).res ∧
    (login sampleLib devEnv aliceDb (some "nobody@x.com") (some "password1")).res =
      { status := 401, error := some "Unauthorized",
        message := "Invalid username or password", token := none, resetToken := none } :=
  login_unknown_email_eq_wrong_password sampleLib devEnv prodEnv aliceDb
    "nobody@x.com" "password1" "a@x.com" "wrongpass" alice
    (by decide) (by decide) (by decide) (by decide) (by decide) (by decide)
    (by decide) (by decide) (by decide)

/-- C5. For a well-formed email, `forgotPassword` answers 200 with the same
generic message whether or not a record with that email exists; when no record
has the email, the only statement issued is the lookup and the table is
unchanged. -/
theorem forgotPassword_generic (env : Env) (db : Db) (e : String)
    (he : e ≠ "") (hv : isValidEmail e = true) :
    (forgotPassword env db (some e)).res.status = 200 ∧
    (forgotPassword env db (some e)).res.message =
      "If an account with that email exists, a password reset link has been sent." ∧
    ((∀ v ∈ db.users, v.email ≠ e) →
      (forgotPassword env db (some e)).db = db ∧
      (forgotPassword env db (some e)).queries = [Query.selectByEmail e]) := by
  cases hf : db.users.find? (fun v => v.email == e) with
  | none =>
    simp [forgotPassword, he, hv, Db.query, Db.selectByEmail, head?_selectLimit1, hf,
      resetLinkSent]
  | some u =>
    refine ⟨?_, ?_, ?_⟩
    · simp [forgotPassword, he, hv, Db.query, Db.selectByEmail, head?_selectLimit1, hf]
    · simp [forgotPassword, he, hv, Db.query, Db.selectByEmail, head?_selectLimit1, hf,
        resetLinkSent]
    · intro hno
      have hmem := List.mem_of_find?_eq_some hf
      have heq := List.find?_some hf
      exact absurd (by simpa using heq) (hno u hmem)

/-- Witness for C5: the email of alice and an unknown email, on the table
holding alice. -/
theorem forgotPassword_generic_witness :
    ((forgotPassword devEnv aliceDb (some "a@x.com")).res.status = 200 ∧
     (forgotPassword devEnv aliceDb (some "a@x.com")).res.message =
      "If an account with that email exists, a password reset link has been sent." ∧
     ((∀ v ∈ aliceDb.users, v.email ≠ "a@x.com") →
      (forgotPassword devEnv aliceDb (some "a@x.com")).db = aliceDb ∧
      (forgotPassword devEnv aliceDb (some "a@x.com")).queries =
        [Query.selectByEmail "a@x.com"])) ∧
    (forgotPassword devEnv aliceDb (some "nobody@x.com")).res.status = 200 ∧
    (forgotPassword devEnv aliceDb (some "nobody@x.com")).db = aliceDb :=
  ⟨forgotPassword_generic devEnv aliceDb "a@x.com" (by decide) (by decide),
   by decide, by decide⟩

/-- C6. If the body of a `forgotPassword` response has a `resetToken` field,
then `NODE_ENV` is "development", hence not "production". -/
theorem forgotPassword_resetToken_not_production (env : Env) (db : Db)
    (email : Option String)
    (h : (forgotPassword env db email).res.resetToken ≠ none) :
    env.NODE_ENV = some "development" ∧ env.NODE_ENV ≠ some "production" := by
  have hdev : env.NODE_ENV = some "development" := by
    by_contra hne
    apply h
    unfold forgotPassword
    split
    · rfl
    · split
      · rfl
      · simp only [hne, if_false]
        cases (db.query env.now (Query.selectByEmail (str email))).1.head? <;> rfl
  refine ⟨hdev, ?_⟩
  rw [hdev]
  decide

/-- Witness for C6: in the development environment the response for alice
carries the token. -/
theorem forgotPassword_resetToken_not_production_witness :
    (forgotPassword devEnv aliceDb (some "a@x.com")).res.resetToken ≠ none ∧
    devEnv.NODE_ENV = some "development" ∧ devEnv.NODE_ENV ≠ some "production" :=
  ⟨by decide,
   forgotPassword_resetToken_not_production devEnv aliceDb (some "a@x.com") (by decide)⟩

/-! ## Validation comes before storage -/

theorem falsy_iff (v : Option String) : falsy v = true ↔ v = none ∨ v = some "" := by
  cases v with
  | none => simp
  | some s => simp

/-- C8. If any of username, first_name, last_name, email, password is absent
or empty, or the email does not match the pattern, or the password has fewer
than 8 characters (its JavaScript `length`), then `register` answers 400 with
error "Bad Request", issues no statement, and leaves the table as it was. -/
theorem register_validates_before_storage (lib : Lib) (env : Env) (db : Db)
    (username first_name last_name email password : Option String)
    (h : (username = none ∨ username = some "") ∨
         (first_name = none ∨ first_name = some "") ∨
         (last_name = none ∨ last_name = some "") ∨
         (email = none ∨ email = some "") ∨
         (password = none ∨ password = some "") ∨
         (∃ e, email = some e ∧ isValidEmail e = false) ∨
         (∃ p, password = some p ∧ jsLength p < 8)) :
    (register lib env db username first_name last_name email password).res.status = 400 ∧
    (register lib env db username first_name last_name email password).res.error =
      some "Bad Request" ∧
    (register lib env db username first_name last_name email password).queries = [] ∧
    (register lib env db username first_name last_name email password).db = db := by
  unfold register
  split
  · simp [badRequest]
  · split
    · simp [badRequest]
    · split
      · simp [badRequest]
      · rename_i h1 h2 h3
        exfalso
        simp only [Bool.or_eq_true, not_or, falsy_iff] at h1
        obtain ⟨⟨⟨⟨hu, hf⟩, hl⟩, he⟩, hp⟩ := h1
        rcases h with h | h | h | h | h | ⟨e, rfl, hv⟩ | ⟨p, rfl, hlen⟩
        · exact h.elim hu.1 hu.2
        · exact h.elim hf.1 hf.2
        · exact h.elim hl.1 hl.2
        · exact h.elim he.1 he.2
        · exact h.elim hp.1 hp.2
        · simp [hv] at h2
        · exact h3 (by simpa using hlen)

/-- Witness for C8: a registration whose password has seven characters. -/
theorem register_validates_before_storage_witness :
    (register sampleLib devEnv aliceDb (some "bob") (some "Bob") (some "B")
      (some "b@x.com") (some "passwor")).res.status = 400 ∧
    (register sampleLib devEnv aliceDb (some "bob") (some "Bob") (some "B")
      (some "b@x.com") (some "passwor")).res.error = some "Bad Request" ∧
    (register sampleLib devEnv aliceDb (some "bob") (some "Bob") (some "B")
      (some "b@x.com") (some "passwor")).queries = [] ∧
    (register sampleLib devEnv aliceDb (some "bob") (some "Bob") (some "B")
      (some "b@x.com") (some "passwor")).db = aliceDb :=
  register_validates_before_storage sampleLib devEnv aliceDb (some "bob") (some "Bob")
    (some "B") (some "b@x.com") (some "passwor")
    (Or.inr (Or.inr (Or.inr (Or.inr (Or.inr (Or.inr ⟨"passwor", rfl, by decide⟩))))))

/-- C9 as stated fails at the empty email: `isValidEmail ""` is false, every
other field is present, and each of `register`, `login` and `forgotPassword`
answers with a message other than "Please provide a valid email address". -/
theorem invalid_email_message_counterexample :
    isValidEmail "" = false ∧
    (register sampleLib devEnv aliceDb (some "bob") (some "Bob") (some "B")
      (some "") (some "password1")).res.message = "Please provide all required fields" ∧
    (login sampleLib devEnv aliceDb (some "") (some "password1")).res.message =
      "Please provide all required fields" ∧
    (forgotPassword devEnv aliceDb (some "")).res.message =
      "Please provide an email address" ∧
    ¬ (∀ (lib : Lib) (env : Env) (db : Db) (username first_name last_name password e : String),
        username ≠ "" → first_name ≠ "" → last_name ≠ "" → password ≠ "" →
        isValidEmail e = false →
        (register lib env db (some username) (some first_name) (some last_name) (some e)
            (some password)).res = badRequest "Please provide a valid email address" ∧
        (login lib env db (some e) (some password)).res =
          badRequest "Please provide a valid email address" ∧
        (forgotPassword env db (some e)).res =
          badRequest "Please provide a valid email address") := by
  refine ⟨by decide, by decide, by decide, by decide, ?_⟩
  intro h
  have h1 := (h sampleLib devEnv aliceDb "bob" "Bob" "B" "password1" ""
    (by decide) (by decide) (by decide) (by decide) (by decide)).1
  revert h1
  decide

/-- C9, amended. For every non-empty email string on which `isValidEmail` is
false, with every other field present, each of `register`, `login` and
`forgotPassword` answers 400 with error "Bad Request" and message "Please
provide a valid email address", issues no statement, and leaves the table as it
was. -/
theorem invalid_email_rejected_before_storage (lib : Lib) (env : Env) (db : Db)
    (username first_name last_name password e : String)
    (hu : username ≠ "") (hf : first_name ≠ "") (hl : last_name ≠ "")
    (hp : password ≠ "") (he : e ≠ "") (hv : isValidEmail e = false) :
    ((register lib env db (some username) (some first_name) (some last_name) (some e)
        (some password)).res =
        { status := 400, error := some "Bad Request",
          message := "Please provide a valid email address",
          token := none, resetToken := none } ∧
     (register lib env db (some username) (some first_name) (some last_name) (some e)
        (some password)).queries = [] ∧
     (register lib env db (some username) (some first_name) (some last_name) (some e)
        (some password)).db = db) ∧
    ((login lib env db (some e) (some password)).res =
        { status := 400, error := some "Bad Request",
          message := "Please provide a valid email address",
          token := none, resetToken := none } ∧
     (login lib env db (some e) (some password)).queries = [] ∧
     (login lib env db (some e) (some password)).db = db) ∧
    ((forgotPassword env db (some e)).res =
        { status := 400, error := some "Bad Request",
          message := "Please provide a valid email address",
          token := none, resetToken := none } ∧
     (forgotPassword env db (some e)).queries = [] ∧
     (forgotPassword env db (some e)).db = db) := by
  simp [register, login, forgotPassword, hu, hf, hl, hp, he, hv, badRequest]

/-- Witness for C9, amended: the email "a@xcom" has no dot after the at sign. -/
theorem invalid_email_rejected_before_storage_witness :
    isValidEmail "a@xcom" = false ∧
    (register sampleLib devEnv aliceDb (some "bob") (some "Bob") (some "B") (some "a@xcom")
        (some "password1")).res.message = "Please provide a valid email address" ∧
    (login sampleLib devEnv aliceDb (some "a@xcom") (some "password1")).queries = [] ∧
    (forgotPassword devEnv aliceDb (some "a@xcom")).res.status = 400 := by
  have h := invalid_email_rejected_before_storage sampleLib devEnv aliceDb
    "bob" "Bob" "B" "password1" "a@xcom"
    (by decide) (by decide) (by decide) (by decide) (by decide) (by decide)
  refine ⟨by decide, ?_, h.2.1.2.1, ?_⟩
  · rw [h.1.1]
  · rw [h.2.2.1]

/-! ## Registration conflicts -/

theorem register_valid_unfold (lib : Lib) (env : Env) (db : Db)
    (username first_name last_name email password : String)
    (hu : username ≠ "") (hf : first_name ≠ "") (hl : last_name ≠ "")
    (he : email ≠ "") (hp : password ≠ "")
    (hv : isValidEmail email = true) (hlen : 8 ≤ jsLength password) :
    register lib env db (some username) (some first_name) (some last_name) (some email)
        (some password) =
      if 0 < (db.selectByEmailOrUsername email username).length then
        { res := { status := 409, error := some "Conflict", message := "User already exists",
                   token := none, resetToken := none },
          db := db, queries := [Query.selectByEmailOrUsername email username] }
      else
        { res := { status := 201, error := none, message := "User registered successfully",
                   token := none, resetToken := none },
          db := db.insertUser username first_name last_name email
            (lib.hash password env.salt),
          queries := [Query.selectByEmailOrUsername email username,
            Query.insertUser username first_name last_name email
              (lib.hash password env.salt)] } := by
  have hlen2 : ¬ jsLength password < 8 := by omega
  simp [register, hu, hf, hl, he, hp, hv, hlen2, Db.query]

theorem selectByEmailOrUsername_pos (db : Db) (email username : String) :
    0 < (db.selectByEmailOrUsername email username).length ↔
      ∃ u ∈ db.users, u.email = email ∨ u.username = username := by
  unfold Db.selectByEmailOrUsername
  rw [length_selectLimit1_pos]
  simp

theorem register_created (lib : Lib) (env : Env) (db : Db)
    (username first_name last_name email password : Option String)
    (h : (register lib env db username first_name last_name email password).res.status
      = 201) :
    ∃ u f l e p, username = some u ∧ first_name = some f ∧ last_name = some l ∧
      email = some e ∧ password = some p ∧
      (register lib env db username first_name last_name email password).db.users =
        db.users ++ [{ id := db.nextId, username := u, first_name := f, last_name := l,
                       email := e, password := lib.hash p env.salt,
                       reset_token := none, reset_token_expires := none }] := by
  rcases username with _ | u
  · simp [register, badRequest] at h
  rcases first_name with _ | f
  · simp [register, badRequest] at h
  rcases last_name with _ | l
  · simp [register, badRequest] at h
  rcases email with _ | e
  · simp [register, badRequest] at h
  rcases password with _ | p
  · simp [register, badRequest] at h
  refine ⟨u, f, l, e, p, rfl, rfl, rfl, rfl, rfl, ?_⟩
  unfold register at h ⊢
  by_cases c1 : (falsy (some u) || falsy (some f) || falsy (some l) || falsy (some e) ||
      falsy (some p)) = true
  · rw [if_pos c1] at h; simp [badRequest] at h
  rw [if_neg c1] at h ⊢
  by_cases c2 : (!isValidEmail (str (some e))) = true
  · rw [if_pos c2] at h; simp [badRequest] at h
  rw [if_neg c2] at h ⊢
  by_cases c3 : jsLength (str (some p)) < 8
  · rw [if_pos c3] at h; simp [badRequest] at h
  rw [if_neg c3] at h ⊢
  dsimp only at h ⊢
  by_cases c4 : (db.query env.now (Query.selectByEmailOrUsername (str (some e))
      (str (some u)))).1.length > 0
  · rw [if_pos c4] at h; simp at h
  rw [if_neg c4]
  simp [Db.query, Db.insertUser]

/-- C7. For a valid registration input: if some stored record has the same
email, or some stored record has the same username, `register` answers 409
with error "Conflict", issues only the lookup, and leaves the table as it was.
In particular, after any successful registration on the table, a registration
that reuses its email or its username answers 409 and inserts nothing. -/
theorem register_conflict (lib : Lib) (env : Env) (db : Db)
    (username first_name last_name email password : String)
    (hu : username ≠ "") (hf : first_name ≠ "") (hl : last_name ≠ "")
    (he : email ≠ "") (hp : password ≠ "")
    (hv : isValidEmail email = true) (hlen : 8 ≤ jsLength password) :
    ((∃ u ∈ db.users, u.email = email ∨ u.username = username) →
      (register lib env db (some username) (some first_name) (some last_name)
        (some email) (some password)).res =
        { status := 409, error := some "Conflict", message := "User already exists",
          token := none, resetToken := none } ∧
      (register lib env db (some username) (some first_name) (some last_name)
        (some email) (some password)).queries =
        [Query.selectByEmailOrUsername email username] ∧
      (register lib env db (some username) (some first_name) (some last_name)
        (some email) (some password)).db = db) ∧
    (∀ (env0 : Env) (username0 first_name0 last_name0 email0 password0 : Option String),
      (register lib env0 db username0 first_name0 last_name0 email0 password0).res.status
        = 201 →
      email0 = some email ∨ username0 = some username →
      (register lib env
        (register lib env0 db username0 first_name0 last_name0 email0 password0).db
        (some username) (some first_name) (some last_name) (some email)
        (some password)).res.status = 409 ∧
      (register lib env
        (register lib env0 db username0 first_name0 last_name0 email0 password0).db
        (some username) (some first_name) (some last_name) (some email)
        (some password)).db =
        (register lib env0 db username0 first_name0 last_name0 email0 password0).db) := by
  have key : ∀ d : Db, (∃ u ∈ d.users, u.email = email ∨ u.username = username) →
      register lib env d (some username) (some first_name) (some last_name)
        (some email) (some password) =
      { res := { status := 409, error := some "Conflict", message := "User already exists",
                 token := none, resetToken := none },
        db := d, queries := [Query.selectByEmailOrUsername email username] } := by
    intro d hex
    rw [register_valid_unfold lib env d _ _ _ _ _ hu hf hl he hp hv hlen,
      if_pos ((selectByEmailOrUsername_pos d email username).mpr hex)]
  refine ⟨fun hex => ?_, ?_⟩
  · rw [key db hex]
    exact ⟨rfl, rfl, rfl⟩
  · intro env0 username0 first_name0 last_name0 email0 password0 h201 hsame
    obtain ⟨u0, f0, l0, e0, p0, rfl, -, -, rfl, -, hdb⟩ :=
      register_created lib env0 db username0 first_name0 last_name0 email0 password0 h201
    have hex : ∃ u ∈ (register lib env0 db (some u0) first_name0 last_name0 (some e0)
        password0).db.users, u.email = email ∨ u.username = username := by
      rw [hdb]
      refine ⟨_, List.mem_append_right _ (List.mem_singleton_self _), ?_⟩
      rcases hsame with h | h
      · left; simpa using h
      · right; simpa using h
    rw [key _ hex]
    exact ⟨rfl, rfl⟩

/-- Witness for C7: bob registers on the table holding alice, then a second
registration reuses the email of alice under another username. -/
theorem register_conflict_witness :
    (register sampleLib devEnv aliceDb (some "alice2") (some "Al") (some "A")
        (some "a@x.com") (some "password2")).res.status = 409 ∧
    (register sampleLib devEnv aliceDb (some "alice2") (some "Al") (some "A")
        (some "a@x.com") (some "password2")).db = aliceDb :=
  have h := (register_conflict sampleLib devEnv aliceDb "alice2" "Al" "A" "a@x.com"
    "password2" (by decide) (by decide) (by decide) (by decide) (by decide) (by decide)
    (by decide)).1 ⟨alice, by decide, Or.inl (by decide)⟩
  ⟨by rw [h.1], h.2.2⟩

/-! ## The handlers, branch by branch -/

theorem ne_empty_of_jsLength (p : String) (h : 8 ≤ jsLength p) : p ≠ "" := by
  rintro rfl
  revert h
  decide

theorem login_eq (lib : Lib) (env : Env) (db : Db) (e p : String)
    (he : e ≠ "") (hv : isValidEmail e = true) (hp : p ≠ "") :
    login lib env db (some e) (some p) =
      match db.users.find? (fun v => v.email == e) with
      | none => { res := unauthorized, db := db, queries := [Query.selectByEmail e] }
      | some user =>
        if lib.compare p user.password = true then
          if falsy env.JWT_SECRET = true then
            { res := internalError, db := db, queries := [Query.selectByEmail e] }
          else
            { res := { status := 200, error := none, message := "User login successful",
                       token := some (lib.sign user.id user.username (str env.JWT_SECRET)
                         env.now),
                       resetToken := none },
              db := db, queries := [Query.selectByEmail e] }
        else { res := unauthorized, db := db, queries := [Query.selectByEmail e] } := by
  simp only [login, falsy_some, str_some, Db.query, Db.selectByEmail, head?_selectLimit1]
  cases db.users.find? (fun v => v.email == e) with
  | none => simp [he, hp, hv]
  | some user => cases hc : lib.compare p user.password <;> simp [he, hp, hv, hc]

theorem forgotPassword_eq (env : Env) (db : Db) (e : String)
    (he : e ≠ "") (hv : isValidEmail e = true) :
    forgotPassword env db (some e) =
      match db.users.find? (fun v => v.email == e) with
      | none =>
        { res := { status := 200, error := none, message := resetLinkSent,
                   token := none, resetToken := none },
          db := db, queries := [Query.selectByEmail e] }
      | some user =>
        { res := { status := 200, error := none, message := resetLinkSent,
                   token := none,
                   resetToken :=
                     if env.NODE_ENV = some "development" then some env.randomHex
                     else none },
          db := db.updateResetToken env.randomHex (env.now + 3600000) user.id,
          queries := [Query.selectByEmail e,
            Query.updateResetToken env.randomHex (env.now + 3600000) user.id] } := by
  simp only [forgotPassword, falsy_some, str_some, Db.query, Db.selectByEmail,
    head?_selectLimit1]
  cases db.users.find? (fun v => v.email == e) with
  | none => simp [he, hv]
  | some user => simp [he, hv]

theorem resetPassword_eq (lib : Lib) (env : Env) (db : Db) (t p : String)
    (ht : t ≠ "") (hlen : 8 ≤ jsLength p) :
    resetPassword lib env db (some t) (some p) =
      match db.users.find? (tokenLive env.now t) with
      | none =>
        { res := badRequest "Invalid or expired reset token", db := db,
          queries := [Query.selectByResetToken t] }
      | some user =>
        { res := { status := 200, error := none,
                   message := "Password has been reset successfully",
                   token := none, resetToken := none },
          db := db.updatePassword (lib.hash p env.salt) user.id,
          queries := [Query.selectByResetToken t,
            Query.updatePassword (lib.hash p env.salt) user.id] } := by
  have hp := ne_empty_of_jsLength p hlen
  have hlen2 : ¬ jsLength p < 8 := by omega
  simp only [resetPassword, falsy_some, str_some, Db.query, Db.selectByResetToken,
    head?_selectLimit1]
  cases db.users.find? (tokenLive env.now t) with
  | none => simp [ht, hp, hlen2]
  | some user => simp [ht, hp, hlen2]

/-- Every response of `resetPassword` other than 200 comes with an unchanged
table, and a 200 response means the token and password passed validation. -/
theorem resetPassword_ok (lib : Lib) (env : Env) (db : Db) (token newPassword : Option String)
    (h : (resetPassword lib env db token newPassword).res.status = 200) :
    ∃ t p, token = some t ∧ newPassword = some p ∧ t ≠ "" ∧ 8 ≤ jsLength p := by
  rcases token with _ | t
  · simp [resetPassword, badRequest] at h
  rcases newPassword with _ | p
  · simp [resetPassword, badRequest] at h
  refine ⟨t, p, rfl, rfl, ?_, ?_⟩
  · rintro rfl
    simp [resetPassword, badRequest] at h
  · by_contra hlen
    have hlen2 : jsLength p < 8 := by omega
    unfold resetPassword at h
    by_cases c1 : (falsy (some t) || falsy (some p)) = true
    · rw [if_pos c1] at h; simp [badRequest] at h
    · rw [if_neg c1, if_pos (by simpa using hlen2)] at h; simp [badRequest] at h

/-! ## How each handler changes the table -/

theorem login_db (lib : Lib) (env : Env) (db : Db) (email password : Option String) :
    (login lib env db email password).db = db := by
  unfold login
  split
  · rfl
  · split
    · rfl
    · dsimp only
      split
      · simp [Db.query]
      · split
        · simp [Db.query]
        · split <;> simp [Db.query]

theorem forgotPassword_db (env : Env) (db : Db) (email : Option String) :
    (forgotPassword env db email).db = db ∨
    ∃ id, (forgotPassword env db email).db =
      db.updateResetToken env.randomHex (env.now + 3600000) id := by
  unfold forgotPassword
  split
  · exact Or.inl rfl
  · split
    · exact Or.inl rfl
    · dsimp only
      split
      · left; simp [Db.query]
      · rename_i user _
        right; exact ⟨user.id, by simp [Db.query]⟩

theorem resetPassword_db (lib : Lib) (env : Env) (db : Db)
    (token newPassword : Option String) :
    (resetPassword lib env db token newPassword).db = db ∨
    ∃ pw id, (resetPassword lib env db token newPassword).db = db.updatePassword pw id := by
  unfold resetPassword
  split
  · exact Or.inl rfl
  · split
    · exact Or.inl rfl
    · dsimp only
      split
      · left; simp [Db.query]
      · rename_i user _
        right; exact ⟨lib.hash (str newPassword) env.salt, user.id, by simp [Db.query]⟩

theorem register_db (lib : Lib) (env : Env) (db : Db)
    (username first_name last_name email password : Option String) :
    (register lib env db username first_name last_name email password).db = db ∨
    ∃ u f l e p, (register lib env db username first_name last_name email password).db =
      db.insertUser u f l e p := by
  unfold register
  split
  · exact Or.inl rfl
  · split
    · exact Or.inl rfl
    · split
      · exact Or.inl rfl
      · dsimp only
        split
        · left; simp [Db.query]
        · right
          exact ⟨str username, str first_name, str last_name, str email,
            lib.hash (str password) env.salt, by simp [Db.query]⟩

/-- The table after any call is the table before, or it with one row
inserted, or it with one of the two updates applied. -/
theorem handle_db (lib : Lib) (env : Env) (db : Db) (c : Call) :
    (handle lib env db c).db = db ∨
    (∃ u f l e p, (handle lib env db c).db = db.insertUser u f l e p) ∨
    (∃ t x id, (handle lib env db c).db = db.updateResetToken t x id) ∨
    (∃ pw id, (handle lib env db c).db = db.updatePassword pw id) := by
  cases c with
  | register username first_name last_name email password =>
    rcases register_db lib env db username first_name last_name email password with h | h
    · exact Or.inl h
    · exact Or.inr (Or.inl h)
  | login email password => exact Or.inl (login_db lib env db email password)
  | forgotPassword email =>
    rcases forgotPassword_db env db email with h | ⟨id, h⟩
    · exact Or.inl h
    · exact Or.inr (Or.inr (Or.inl ⟨_, _, id, h⟩))
  | resetPassword token newPassword =>
    rcases resetPassword_db lib env db token newPassword with h | h
    · exact Or.inl h
    · exact Or.inr (Or.inr (Or.inr h))

theorem paired_insertUser (db : Db) (u f l e p : String)
    (h : ∀ v ∈ db.users, v.paired) : ∀ v ∈ (db.insertUser u f l e p).users, v.paired := by
  intro v hv
  simp only [Db.insertUser, List.mem_append, List.mem_singleton] at hv
  rcases hv with hv | rfl
  · exact h v hv
  · rfl

theorem paired_updateResetToken (db : Db) (t : String) (x id : Nat)
    (h : ∀ v ∈ db.users, v.paired) :
    ∀ v ∈ (db.updateResetToken t x id).users, v.paired := by
  intro v hv
  simp only [Db.updateResetToken, List.mem_map] at hv
  obtain ⟨w, hw, rfl⟩ := hv
  by_cases c : w.id = id
  · rw [if_pos c]; rfl
  · rw [if_neg c]; exact h w hw

theorem paired_updatePassword (db : Db) (pw : String) (id : Nat)
    (h : ∀ v ∈ db.users, v.paired) :
    ∀ v ∈ (db.updatePassword pw id).users, v.paired := by
  intro v hv
  simp only [Db.updatePassword, List.mem_map] at hv
  obtain ⟨w, hw, rfl⟩ := hv
  by_cases c : w.id = id
  · rw [if_pos c]; rfl
  · rw [if_neg c]; exact h w hw

theorem paired_handle (lib : Lib) (env : Env) (db : Db) (c : Call)
    (h : ∀ v ∈ db.users, v.paired) : ∀ v ∈ (handle lib env db c).db.users, v.paired := by
  rcases handle_db lib env db c with e | ⟨u, f, l, e', p, e⟩ | ⟨t, x, id, e⟩ | ⟨pw, id, e⟩
  · rw [e]; exact h
  · rw [e]; exact paired_insertUser db u f l e' p h
  · rw [e]; exact paired_updateResetToken db t x id h
  · rw [e]; exact paired_updatePassword db pw id h

theorem paired_of_reachable (lib : Lib) (db : Db) (h : Reachable lib db) :
    ∀ v ∈ db.users, v.paired := by
  induction h with
  | empty => intro v hv; simp [Db.empty] at hv
  | step db env c _ ih => exact paired_handle lib env db c ih

theorem aliceDb_reachable : Reachable sampleLib aliceDb := by
  have h := Reachable.step Db.empty devEnv
    (Call.register (some "alice") (some "Alice") (some "A") (some "a@x.com")
      (some "password1")) (Reachable.empty : Reachable sampleLib Db.empty)
  have e : (handle sampleLib devEnv Db.empty
    (Call.register (some "alice") (some "Alice") (some "A") (some "a@x.com")
      (some "password1"))).db = aliceDb := by decide
  rw [e] at h
  exact h

theorem twoUsersDb_reachable : Reachable sampleLib twoUsersDb := by
  have h1 := Reachable.step aliceDb devEnv
    (Call.register (some "bob") (some "Bob") (some "B") (some "b@x.com")
      (some "password2")) aliceDb_reachable
  have h2 := Reachable.step _ devEnv (Call.forgotPassword (some "a@x.com")) h1
  have e : (handle sampleLib devEnv
      (handle sampleLib devEnv aliceDb
        (Call.register (some "bob") (some "Bob") (some "B") (some "b@x.com")
          (some "password2"))).db
      (Call.forgotPassword (some "a@x.com"))).db = twoUsersDb := by decide
  rw [e] at h2
  exact h2

theorem sharedTokenDb_reachable : Reachable sampleLib sharedTokenDb := by
  have h := Reachable.step twoUsersDb prodEnv (Call.forgotPassword (some "b@x.com"))
    twoUsersDb_reachable
  have e : (handle sampleLib prodEnv twoUsersDb
      (Call.forgotPassword (some "b@x.com"))).db = sharedTokenDb := by decide
  rw [e] at h
  exact h

/-- C10. In every table reachable from the empty one by calls to `register`,
`login`, `forgotPassword` and `resetPassword`, each record has `reset_token`
and `reset_token_expires` both present or both absent.  A successful
`register` appends a record with both absent; a `forgotPassword` that finds a
user sets both on the records with the id of that user; a `resetPassword` that
finds a user clears both on the records with the id of that user. -/
theorem reset_fields_paired (lib : Lib) (db : Db) (h : Reachable lib db) :
    (∀ u ∈ db.users, u.reset_token.isSome = u.reset_token_expires.isSome) ∧
    (∀ (env : Env) (username first_name last_name email password : Option String),
      (register lib env db username first_name last_name email password).res.status = 201 →
      ∃ u, (register lib env db username first_name last_name email password).db.users =
          db.users ++ [u] ∧
        u.reset_token = none ∧ u.reset_token_expires = none) ∧
    (∀ (env : Env) (e : String) (user : User), e ≠ "" → isValidEmail e = true →
      db.users.find? (fun v => v.email == e) = some user →
      (forgotPassword env db (some e)).db.users =
        db.users.map (fun v =>
          if v.id = user.id then
            { v with reset_token := some env.randomHex,
                     reset_token_expires := some (env.now + 3600000) }
          else v)) ∧
    (∀ (env : Env) (t p : String) (user : User), t ≠ "" → 8 ≤ jsLength p →
      db.users.find? (tokenLive env.now t) = some user →
      (resetPassword lib env db (some t) (some p)).db.users =
        db.users.map (fun v =>
          if v.id = user.id then
            { v with password := lib.hash p env.salt, reset_token := none,
                     reset_token_expires := none }
          else v)) := by
  refine ⟨paired_of_reachable lib db h, ?_, ?_, ?_⟩
  · intro env username first_name last_name email password h201
    obtain ⟨u, f, l, e, p, -, -, -, -, -, hdb⟩ :=
      register_created lib env db username first_name last_name email password h201
    exact ⟨_, hdb, rfl, rfl⟩
  · intro env e user he hv hfind
    rw [forgotPassword_eq env db e he hv, hfind]
    rfl
  · intro env t p user ht hlen hfind
    rw [resetPassword_eq lib env db t p ht hlen, hfind]
    rfl

/-- Witness for C10: the table reached when alice and bob have registered and
each has asked for a token, so both records carry both reset fields.  On it,
carol registers and her record has neither field; alice asks again and gets
both fields set anew; alice resets her password and both her fields are
cleared, while bob keeps his. -/
theorem reset_fields_paired_witness :
    Reachable sampleLib sharedTokenDb ∧
    (∀ u ∈ sharedTokenDb.users, u.reset_token.isSome = u.reset_token_expires.isSome) ∧
    (∃ u, (register sampleLib laterEnv sharedTokenDb (some "carol") (some "Carol")
          (some "C") (some "c@x.com") (some "password3")).db.users =
        sharedTokenDb.users ++ [u] ∧
      u.reset_token = none ∧ u.reset_token_expires = none) ∧
    (forgotPassword laterEnv sharedTokenDb (some "a@x.com")).db.users =
      [{ aliceWithToken with reset_token := some laterEnv.randomHex,
                             reset_token_expires := some 3603000 },
       bobWithToken] ∧
    (resetPassword sampleLib laterEnv sharedTokenDb (some sampleToken)
        (some "newpassword1")).db.users =
      [{ aliceWithToken with password := "newpassword1", reset_token := none,
                             reset_token_expires := none },
       bobWithToken] := by
  have h := reset_fields_paired sampleLib sharedTokenDb sharedTokenDb_reachable
  refine ⟨sharedTokenDb_reachable, h.1, ?_, ?_, ?_⟩
  · exact h.2.1 laterEnv (some "carol") (some "Carol") (some "C") (some "c@x.com")
      (some "password3") (by decide)
  · rw [h.2.2.1 laterEnv "a@x.com" aliceWithToken (by decide) (by decide) (by decide)]
    decide
  · rw [h.2.2.2 laterEnv sampleToken "newpassword1" aliceWithToken (by decide) (by decide)
      (by decide)]
    decide

/-! ## Reset tokens -/

theorem tokenLive_iff (now : Nat) (t : String) (u : User) :
    tokenLive now t u = true ↔
      u.reset_token = some t ∧ ∃ x, u.reset_token_expires = some x ∧ now < x := by
  unfold tokenLive
  cases u.reset_token_expires with
  | none => simp
  | some x => simp

/-- With no live record for the token, `resetPassword` answers 400, the body
depending only on whether the fields are present and on the password length,
and leaves the table as it was. -/
theorem resetPassword_of_no_live (lib : Lib) (env : Env) (db : Db) (t : String)
    (p : Option String) (h : db.users.find? (tokenLive env.now t) = none) :
    (resetPassword lib env db (some t) p).res =
      (if (t == "" || falsy p) = true then
        badRequest "Please provide reset token and new password"
      else if jsLength (str p) < 8 then
        badRequest "Password must be at least 8 characters"
      else badRequest "Invalid or expired reset token") ∧
    (resetPassword lib env db (some t) p).db = db := by
  unfold resetPassword
  simp only [falsy_some, str_some]
  split
  · exact ⟨rfl, rfl⟩
  · split
    · exact ⟨rfl, rfl⟩
    · simp [Db.query, Db.selectByResetToken, head?_selectLimit1, h]

theorem status_of_no_live (t : String) (p : Option String) :
    (if (t == "" || falsy p) = true then
        badRequest "Please provide reset token and new password"
      else if jsLength (str p) < 8 then
        badRequest "Password must be at least 8 characters"
      else badRequest "Invalid or expired reset token").status = 400 := by
  split
  · rfl
  · split <;> rfl

/-- C2. If every record whose `reset_token` equals `T` has
`reset_token_expires` at or before the current time (or none), then
`resetPassword(T, p)` answers 400 and leaves the table as it was; its response
is the one the same request gets on any table where no record carries `T`,
and, for `T` present, the one a request with any other present token that no
record carries gets on this table. -/
theorem resetPassword_expired (lib : Lib) (env : Env) (db : Db) (T : String)
    (p : Option String)
    (hexp : ∀ u ∈ db.users, u.reset_token = some T →
      ∀ x, u.reset_token_expires = some x → x ≤ env.now) :
    (resetPassword lib env db (some T) p).res.status = 400 ∧
    (resetPassword lib env db (some T) p).db = db ∧
    (∀ db2 : Db, (∀ u ∈ db2.users, u.reset_token ≠ some T) →
      (resetPassword lib env db (some T) p).res =
        (resetPassword lib env db2 (some T) p).res) ∧
    (∀ T2 : String, T ≠ "" → T2 ≠ "" → (∀ u ∈ db.users, u.reset_token ≠ some T2) →
      (resetPassword lib env db (some T) p).res =
        (resetPassword lib env db (some T2) p).res) := by
  have hnone : db.users.find? (tokenLive env.now T) = none := by
    rw [List.find?_eq_none]
    intro u hu hlive
    obtain ⟨ht, x, hx, hlt⟩ := (tokenLive_iff env.now T u).mp hlive
    have := hexp u hu ht x hx
    omega
  have absent : ∀ (d : Db) (t : String), (∀ u ∈ d.users, u.reset_token ≠ some t) →
      d.users.find? (tokenLive env.now t) = none := by
    intro d t hd
    rw [List.find?_eq_none]
    intro u hu hlive
    exact hd u hu ((tokenLive_iff env.now t u).mp hlive).1
  obtain ⟨hres, hdb⟩ := resetPassword_of_no_live lib env db T p hnone
  refine ⟨?_, hdb, ?_, ?_⟩
  · rw [hres]; exact status_of_no_live T p
  · intro db2 h2
    rw [hres, (resetPassword_of_no_live lib env db2 T p (absent db2 T h2)).1]
  · intro T2 hT hT2 h2
    rw [hres, (resetPassword_of_no_live lib env db T2 p (absent db T2 h2)).1]
    simp [hT, hT2]

/-- Witness for C2: alice holds a token that expires at time 3601000, and the
request arrives at exactly that time. -/
theorem resetPassword_expired_witness :
    (resetPassword sampleLib staleEnv aliceTokenDb (some sampleToken)
      (some "newpassword1")).res = badRequest "Invalid or expired reset token" ∧
    (resetPassword sampleLib staleEnv aliceTokenDb (some sampleToken)
      (some "newpassword1")).db = aliceTokenDb ∧
    (resetPassword sampleLib staleEnv aliceTokenDb (some sampleToken)
      (some "newpassword1")).res =
      (resetPassword sampleLib staleEnv aliceTokenDb (some "00ff")
        (some "newpassword1")).res := by
  have h := resetPassword_expired sampleLib staleEnv aliceTokenDb sampleToken
    (some "newpassword1") (by decide)
  exact ⟨by decide, h.2.1, h.2.2.2 "00ff" (by decide) (by decide) (by decide)⟩

/-- C1 as stated fails on a reachable table in which two records carry the
same unused token: the first `resetPassword` consumes the token of alice only, and a replay
of the same token is accepted again, for bob. -/
theorem resetPassword_replay_counterexample :
    Reachable sampleLib sharedTokenDb ∧
    (resetPassword sampleLib laterEnv sharedTokenDb (some sampleToken)
      (some "newpassword1")).res.status = 200 ∧
    (resetPassword sampleLib laterEnv
      (resetPassword sampleLib laterEnv sharedTokenDb (some sampleToken)
        (some "newpassword1")).db
      (some sampleToken) (some "newpassword2")).res.status = 200 ∧
    ¬ (∀ (lib : Lib) (env1 env2 : Env) (db : Db) (T p1 p2 : String),
        8 ≤ jsLength p1 → 8 ≤ jsLength p2 →
        (resetPassword lib env1 db (some T) (some p1)).res.status = 200 →
        (resetPassword lib env2 (resetPassword lib env1 db (some T) (some p1)).db
            (some T) (some p2)).res = badRequest "Invalid or expired reset token" ∧
        (resetPassword lib env2 (resetPassword lib env1 db (some T) (some p1)).db
            (some T) (some p2)).db =
          (resetPassword lib env1 db (some T) (some p1)).db) := by
  refine ⟨sharedTokenDb_reachable, by decide, by decide, ?_⟩
  intro h
  have h1 := (h sampleLib laterEnv laterEnv sharedTokenDb sampleToken "newpassword1"
    "newpassword2" (by decide) (by decide) (by decide)).1
  revert h1
  decide

theorem noToken_handle (lib : Lib) (env : Env) (db : Db) (c : Call) (T : String)
    (hc : c.isForgotPassword = false)
    (h : ∀ u ∈ db.users, u.reset_token ≠ some T) :
    ∀ u ∈ (handle lib env db c).db.users, u.reset_token ≠ some T := by
  have hins : ∀ (u f l e p : String), ∀ v ∈ (db.insertUser u f l e p).users,
      v.reset_token ≠ some T := by
    intro u f l e p v hv
    simp only [Db.insertUser, List.mem_append, List.mem_singleton] at hv
    rcases hv with hv | rfl
    · exact h v hv
    · simp
  have hupd : ∀ (pw : String) (id : Nat), ∀ v ∈ (db.updatePassword pw id).users,
      v.reset_token ≠ some T := by
    intro pw id v hv
    simp only [Db.updatePassword, List.mem_map] at hv
    obtain ⟨w, hw, rfl⟩ := hv
    by_cases c : w.id = id
    · rw [if_pos c]; simp
    · rw [if_neg c]; exact h w hw
  cases c with
  | register username first_name last_name email password =>
    show ∀ u ∈ (register lib env db username first_name last_name email password).db.users,
      u.reset_token ≠ some T
    rcases register_db lib env db username first_name last_name email password with
      e | ⟨u, f, l, e', p, e⟩
    · rw [e]; exact h
    · rw [e]; exact hins u f l e' p
  | login email password =>
    show ∀ u ∈ (login lib env db email password).db.users, u.reset_token ≠ some T
    rw [login_db]; exact h
  | forgotPassword email => cases hc
  | resetPassword token newPassword =>
    show ∀ u ∈ (resetPassword lib env db token newPassword).db.users,
      u.reset_token ≠ some T
    rcases resetPassword_db lib env db token newPassword with e | ⟨pw, id, e⟩
    · rw [e]; exact h
    · rw [e]; exact hupd pw id

theorem noToken_runCalls (lib : Lib) (T : String) (calls : List (Env × Call))
    (hcalls : ∀ ec ∈ calls, ec.2.isForgotPassword = false) :
    ∀ db : Db, (∀ u ∈ db.users, u.reset_token ≠ some T) →
      ∀ u ∈ (runCalls lib db calls).users, u.reset_token ≠ some T := by
  induction calls with
  | nil => intro db h; exact h
  | cons ec rest ih =>
    intro db h
    obtain ⟨env, c⟩ := ec
    exact ih (fun x hx => hcalls x (List.mem_cons_of_mem _ hx)) _
      (noToken_handle lib env db c T (hcalls (env, c) (List.mem_cons_self _ _)) h)

/-- After a `resetPassword` that answers 200 for token `T`, on a table in which
all records carrying `T` share one id, no record carries `T`. -/
theorem noToken_after_reset (lib : Lib) (env1 : Env) (db : Db) (T p1 : String)
    (huniq : ∀ u ∈ db.users, ∀ v ∈ db.users,
      u.reset_token = some T → v.reset_token = some T → u.id = v.id)
    (h200 : (resetPassword lib env1 db (some T) (some p1)).res.status = 200) :
    ∀ u ∈ (resetPassword lib env1 db (some T) (some p1)).db.users,
      u.reset_token ≠ some T := by
  obtain ⟨t, p, ht, hp, hT, hp1⟩ := resetPassword_ok lib env1 db _ _ h200
  cases ht
  cases hp
  rw [resetPassword_eq lib env1 db T p1 hT hp1] at h200 ⊢
  cases hfind : db.users.find? (tokenLive env1.now T) with
  | none =>
    rw [hfind] at h200
    simp [badRequest] at h200
  | some user =>
    have huser := (tokenLive_iff env1.now T user).mp (List.find?_some hfind)
    have humem := List.mem_of_find?_eq_some hfind
    intro x hx
    simp only [Db.updatePassword, List.mem_map] at hx
    obtain ⟨w, hw, rfl⟩ := hx
    by_cases c : w.id = user.id
    · rw [if_pos c]; simp
    · rw [if_neg c]
      intro hw2
      exact c (huniq w hw user humem hw2 huser.1)

/-- C1, amended. On a table in which all records carrying token `T` share one
id, if `resetPassword(T, p1)` answers 200, then after any sequence of calls to
`register`, `login` and `resetPassword` (no `forgotPassword` among them), a
`resetPassword(T, p2)` with `p2` of length at least 8 answers 400 with message
"Invalid or expired reset token", issues only the lookup, and leaves the table
as it was. -/
theorem resetPassword_single_use (lib : Lib) (env1 env2 : Env) (db : Db)
    (T p1 p2 : String) (calls : List (Env × Call)) (hp2 : 8 ≤ jsLength p2)
    (huniq : ∀ u ∈ db.users, ∀ v ∈ db.users,
      u.reset_token = some T → v.reset_token = some T → u.id = v.id)
    (h200 : (resetPassword lib env1 db (some T) (some p1)).res.status = 200)
    (hcalls : ∀ ec ∈ calls, ec.2.isForgotPassword = false) :
    (resetPassword lib env2
        (runCalls lib (resetPassword lib env1 db (some T) (some p1)).db calls)
        (some T) (some p2)).res =
      { status := 400, error := some "Bad Request",
        message := "Invalid or expired reset token", token := none, resetToken := none } ∧
    (resetPassword lib env2
        (runCalls lib (resetPassword lib env1 db (some T) (some p1)).db calls)
        (some T) (some p2)).queries = [Query.selectByResetToken T] ∧
    (resetPassword lib env2
        (runCalls lib (resetPassword lib env1 db (some T) (some p1)).db calls)
        (some T) (some p2)).db =
      runCalls lib (resetPassword lib env1 db (some T) (some p1)).db calls := by
  obtain ⟨t, p, ht, -, hT, -⟩ := resetPassword_ok lib env1 db _ _ h200
  cases ht
  have hno := noToken_runCalls lib T calls hcalls _
    (noToken_after_reset lib env1 db T p1 huniq h200)
  have hnone : (runCalls lib (resetPassword lib env1 db (some T) (some p1)).db
      calls).users.find? (tokenLive env2.now T) = none := by
    rw [List.find?_eq_none]
    intro x hx hlive
    exact hno x hx ((tokenLive_iff env2.now T x).mp hlive).1
  rw [resetPassword_eq lib env2 _ T p2 hT hp2, hnone]
  exact ⟨rfl, rfl, rfl⟩

/-- Witness for C1, amended: alice alone holds the token; her first reset is
accepted, then bob registers, alice logs in with the new password and bob sends
a reset with an unknown token, and the replay of the token of alice is
refused. -/
theorem resetPassword_single_use_witness :
    (resetPassword sampleLib laterEnv aliceTokenDb (some sampleToken)
      (some "newpassword1")).res.status = 200 ∧
    (resetPassword sampleLib laterEnv
        (runCalls sampleLib
          (resetPassword sampleLib laterEnv aliceTokenDb (some sampleToken)
            (some "newpassword1")).db
          [(laterEnv, Call.register (some "bob") (some "Bob") (some "B")
              (some "b@x.com") (some "password2")),
           (laterEnv, Call.login (some "a@x.com") (some "newpassword1")),
           (laterEnv, Call.resetPassword (some "00ff") (some "newpassword3"))])
        (some sampleToken) (some "newpassword2")).res.message =
      "Invalid or expired reset token" := by
  have h := resetPassword_single_use sampleLib laterEnv laterEnv aliceTokenDb sampleToken
    "newpassword1" "newpassword2"
    [(laterEnv, Call.register (some "bob") (some "Bob") (some "B")
        (some "b@x.com") (some "password2")),
     (laterEnv, Call.login (some "a@x.com") (some "newpassword1")),
     (laterEnv, Call.resetPassword (some "00ff") (some "newpassword3"))]
    (by decide) (by decide) (by decide) (by decide)
  exact ⟨by decide, by rw [h.1]⟩

/-! ## A successful reset replaces the password -/

theorem sampleLib_hash (p q salt : String) :
    sampleLib.compare q (sampleLib.hash p salt) = true ↔ p = q := by
  show (q == p) = true ↔ p = q
  rw [beq_iff_eq]
  exact eq_comm

/-- The lookup by email after both updates finds the updated record of the
user the email belongs to. -/
theorem find?_email_map (us : List User) (e : String) (u : User) (g : User → User)
    (hg : ∀ v, (g v).email = v.email)
    (hfind : us.find? (fun v => v.email == e) = some u) :
    (us.map g).find? (fun v => v.email == e) = some (g u) := by
  rw [List.find?_map]
  have : ((fun v : User => v.email == e) ∘ g) = (fun v => v.email == e) := by
    funext v
    simp [hg v]
  rw [this, hfind]
  rfl

theorem find?_email_unique (us : List User) (e : String) (u : User)
    (hu : u ∈ us) (hue : u.email = e) (hemails : ∀ v ∈ us, v.email = e → v = u) :
    us.find? (fun v => v.email == e) = some u := by
  cases hfind : us.find? (fun v => v.email == e) with
  | none =>
    rw [List.find?_eq_none] at hfind
    exact absurd (by simpa using hue) (hfind u hu)
  | some w =>
    have hw := List.mem_of_find?_eq_some hfind
    have hwe : w.email = e := by simpa using List.find?_some hfind
    rw [hemails w hw hwe]

/-- The table after `forgotPassword` for the email of `u` and a `resetPassword`
that answers 200 with the token just stored, when no other record carries that
token: only the record of `u` differs, and it holds the new hash. -/
theorem forgot_then_reset_users (lib : Lib) (envF envR : Env) (db : Db) (u : User)
    (e new : String)
    (hu : u ∈ db.users) (hue : u.email = e)
    (hemails : ∀ v ∈ db.users, v.email = e → v = u)
    (hids : ∀ v ∈ db.users, v.id = u.id → v = u)
    (he : e ≠ "") (hv : isValidEmail e = true)
    (hfresh : ∀ v ∈ db.users, v.reset_token = some envF.randomHex → v = u)
    (h200 : (resetPassword lib envR (forgotPassword envF db (some e)).db
      (some envF.randomHex) (some new)).res.status = 200) :
    (resetPassword lib envR (forgotPassword envF db (some e)).db
      (some envF.randomHex) (some new)).db.users =
      db.users.map (fun v =>
        if v = u then
          { u with password := lib.hash new envR.salt, reset_token := none,
                   reset_token_expires := none }
        else v) := by
  obtain ⟨t, p, ht, hp, hT, hlen⟩ := resetPassword_ok lib envR _ _ _ h200
  cases ht
  cases hp
  have hfind := find?_email_unique db.users e u hu hue hemails
  rw [forgotPassword_eq envF db e he hv, hfind] at h200 ⊢
  dsimp only at h200 ⊢
  rw [resetPassword_eq lib envR _ _ _ hT hlen] at h200 ⊢
  cases hlive : (db.updateResetToken envF.randomHex (envF.now + 3600000) u.id).users.find?
      (tokenLive envR.now envF.randomHex) with
  | none =>
    rw [hlive] at h200
    simp [badRequest] at h200
  | some user =>
    have hid : user.id = u.id := by
      have hmem := List.mem_of_find?_eq_some hlive
      have htok := ((tokenLive_iff _ _ _).mp (List.find?_some hlive)).1
      simp only [Db.updateResetToken, List.mem_map] at hmem
      obtain ⟨w, hw, rfl⟩ := hmem
      by_cases c : w.id = u.id
      · rw [if_pos c]; exact c
      · rw [if_neg c] at htok ⊢
        rw [hfresh w hw htok]
    dsimp only
    simp only [Db.updatePassword, Db.updateResetToken, List.map_map, hid]
    apply List.map_congr_left
    intro v hvmem
    by_cases c : v = u
    · subst c
      simp
    · have c2 : v.id ≠ u.id := fun h => c (hids v hvmem h)
      simp [c, c2]

/-- C3 as stated fails in two ways.  First, when the token drawn for bob is one
that alice, stored before him, still holds: `resetPassword` answers 200 but
changes the password of alice, so bob still logs in with his old password and
not with the new one.  The table is reachable, ids and emails are unique in it,
and the hasher verifies exactly the hashed password.  Second, when
`JWT_SECRET` is empty at the time of the login: alice, alone in the table,
resets her password, and `login` with the new password answers 500, even
though no other record carries her token. -/
theorem reset_replaces_password_counterexample :
    Reachable sampleLib twoUsersDb ∧
    (forgotPassword prodEnv twoUsersDb (some "b@x.com")).db = sharedTokenDb ∧
    (resetPassword sampleLib laterEnv sharedTokenDb (some sampleToken)
      (some "newpassword1")).res.status = 200 ∧
    (login sampleLib laterEnv
      (resetPassword sampleLib laterEnv sharedTokenDb (some sampleToken)
        (some "newpassword1")).db
      (some "b@x.com") (some "password2")).res.status = 200 ∧
    (login sampleLib laterEnv
      (resetPassword sampleLib laterEnv sharedTokenDb (some sampleToken)
        (some "newpassword1")).db
      (some "b@x.com") (some "newpassword1")).res.status = 401 ∧
    ¬ (∀ (lib : Lib) (envF envR envL1 envL2 : Env) (db : Db) (u : User)
        (e old new : String),
        (∀ p q salt, lib.compare q (lib.hash p salt) = true ↔ p = q) →
        u ∈ db.users → u.email = e →
        (∀ v ∈ db.users, v.email = e → v = u) →
        (∀ v ∈ db.users, v.id = u.id → v = u) →
        e ≠ "" → isValidEmail e = true →
        old ≠ "" → lib.compare old u.password = true → new ≠ old →
        (resetPassword lib envR (forgotPassword envF db (some e)).db
          (some envF.randomHex) (some new)).res.status = 200 →
        (login lib envL1
          (resetPassword lib envR (forgotPassword envF db (some e)).db
            (some envF.randomHex) (some new)).db
          (some e) (some old)).res.status = 401 ∧
        (login lib envL2
          (resetPassword lib envR (forgotPassword envF db (some e)).db
            (some envF.randomHex) (some new)).db
          (some e) (some new)).res.status = 200) ∧
    (resetPassword sampleLib laterEnv (forgotPassword devEnv aliceDb (some "a@x.com")).db
      (some devEnv.randomHex) (some "newpassword1")).res.status = 200 ∧
    (login sampleLib noSecretEnv
      (resetPassword sampleLib laterEnv (forgotPassword devEnv aliceDb (some "a@x.com")).db
        (some devEnv.randomHex) (some "newpassword1")).db
      (some "a@x.com") (some "newpassword1")).res.status = 500 ∧
    ¬ (∀ (lib : Lib) (envF envR envL2 : Env) (db : Db) (u : User) (e old new : String),
        (∀ p q salt, lib.compare q (lib.hash p salt) = true ↔ p = q) →
        u ∈ db.users → u.email = e →
        (∀ v ∈ db.users, v.email = e → v = u) →
        (∀ v ∈ db.users, v.id = u.id → v = u) →
        e ≠ "" → isValidEmail e = true →
        old ≠ "" → lib.compare old u.password = true → new ≠ old →
        (∀ v ∈ db.users, v.reset_token = some envF.randomHex → v = u) →
        (resetPassword lib envR (forgotPassword envF db (some e)).db
          (some envF.randomHex) (some new)).res.status = 200 →
        (login lib envL2
          (resetPassword lib envR (forgotPassword envF db (some e)).db
            (some envF.randomHex) (some new)).db
          (some e) (some new)).res.status = 200) := by
  refine ⟨twoUsersDb_reachable, by decide, by decide, by decide, by decide, ?_,
    by decide, by decide, ?_⟩
  · intro h
    have h1 := (h sampleLib prodEnv laterEnv laterEnv laterEnv twoUsersDb bob "b@x.com"
      "password2" "newpassword1" sampleLib_hash (by decide) (by decide) (by decide)
      (by decide) (by decide) (by decide) (by decide) (by decide) (by decide)
      (by decide)).1
    revert h1
    decide
  · intro h
    have h1 := h sampleLib devEnv laterEnv noSecretEnv aliceDb alice "a@x.com"
      "password1" "newpassword1" sampleLib_hash (by decide) (by decide) (by decide)
      (by decide) (by decide) (by decide) (by decide) (by decide) (by decide)
      (by decide) (by decide)
    revert h1
    decide

/-- C3, amended. Assume the hasher verifies exactly the hashed password.  Let
`u` be the only record with email `e` and the only record with its id, and let
`forgotPassword(e)` draw a token that no other record carries.  If
`resetPassword` with that token and `new` answers 200 and `new` differs from
the non-empty `old`, then `login(e, old)` answers 401, `login(e, new)`, made
while `JWT_SECRET` is set to a non-empty secret, answers 200 with a session
token, and every record other than `u` is as it was, while `u` holds the hash
of `new` and no reset fields. -/
theorem reset_replaces_password (lib : Lib) (envF envR envL1 envL2 : Env) (db : Db)
    (u : User) (e old new : String)
    (hhash : ∀ p q salt, lib.compare q (lib.hash p salt) = true ↔ p = q)
    (hu : u ∈ db.users) (hue : u.email = e)
    (hemails : ∀ v ∈ db.users, v.email = e → v = u)
    (hids : ∀ v ∈ db.users, v.id = u.id → v = u)
    (he : e ≠ "") (hv : isValidEmail e = true)
    (hold : old ≠ "") (hne : new ≠ old)
    (hfresh : ∀ v ∈ db.users, v.reset_token = some envF.randomHex → v = u)
    (secret : String) (hsecret : envL2.JWT_SECRET = some secret) (hset : secret ≠ "")
    (h200 : (resetPassword lib envR (forgotPassword envF db (some e)).db
      (some envF.randomHex) (some new)).res.status = 200) :
    (login lib envL1
      (resetPassword lib envR (forgotPassword envF db (some e)).db
        (some envF.randomHex) (some new)).db
      (some e) (some old)).res =
      { status := 401, error := some "Unauthorized",
        message := "Invalid username or password", token := none, resetToken := none } ∧
    (login lib envL2
      (resetPassword lib envR (forgotPassword envF db (some e)).db
        (some envF.randomHex) (some new)).db
      (some e) (some new)).res =
      { status := 200, error := none, message := "User login successful",
        token := some (lib.sign u.id u.username secret envL2.now),
        resetToken := none } ∧
    (resetPassword lib envR (forgotPassword envF db (some e)).db
      (some envF.randomHex) (some new)).db.users =
      db.users.map (fun v =>
        if v = u then
          { u with password := lib.hash new envR.salt, reset_token := none,
                   reset_token_expires := none }
        else v) := by
  have husers := forgot_then_reset_users lib envF envR db u e new hu hue hemails hids he hv
    hfresh h200
  obtain ⟨t, p, ht, hp, -, hlen⟩ := resetPassword_ok lib envR _ _ _ h200
  cases hp
  have hnew : new ≠ "" := ne_empty_of_jsLength new hlen
  have hfind := find?_email_unique db.users e u hu hue hemails
  have hfind2 := find?_email_map db.users e u
    (fun v => if v = u then
      { u with password := lib.hash new envR.salt, reset_token := none,
               reset_token_expires := none }
      else v)
    (by intro v; by_cases c : v = u <;> simp [c]) hfind
  rw [← husers] at hfind2
  simp only [if_true] at hfind2
  refine ⟨?_, ?_, husers⟩
  · rw [login_eq lib envL1 _ e old he hv hold, hfind2]
    have hc : ¬ lib.compare old (lib.hash new envR.salt) = true :=
      fun h => hne ((hhash new old envR.salt).mp h)
    simp [hc, unauthorized]
  · rw [login_eq lib envL2 _ e new he hv hnew, hfind2]
    have hc : lib.compare new (lib.hash new envR.salt) = true :=
      (hhash new new envR.salt).mpr rfl
    simp [hc, hsecret, hset]

/-- Witness for C3, amended: alice, alone in the table, asks for a token at
time 1000 and resets her password at time 3000. -/
theorem reset_replaces_password_witness :
    (resetPassword sampleLib laterEnv (forgotPassword devEnv aliceDb (some "a@x.com")).db
      (some devEnv.randomHex) (some "newpassword1")).res.status = 200 ∧
    (login sampleLib laterEnv
      (resetPassword sampleLib laterEnv (forgotPassword devEnv aliceDb (some "a@x.com")).db
        (some devEnv.randomHex) (some "newpassword1")).db
      (some "a@x.com") (some "password1")).res.status = 401 ∧
    (login sampleLib laterEnv
      (resetPassword sampleLib laterEnv (forgotPassword devEnv aliceDb (some "a@x.com")).db
        (some devEnv.randomHex) (some "newpassword1")).db
      (some "a@x.com") (some "newpassword1")).res.status = 200 := by
  have h := reset_replaces_password sampleLib devEnv laterEnv laterEnv laterEnv aliceDb
    alice "a@x.com" "password1" "newpassword1" sampleLib_hash (by decide) (by decide)
    (by decide) (by decide) (by decide) (by decide) (by decide) (by decide) (by decide)
    "secret" rfl (by decide) (by decide)
  exact ⟨by decide, by rw [h.1], by rw [h.2.1]⟩

/-! ## Uniqueness of id, email and username in reachable tables -/

theorem register_db_fresh (lib : Lib) (env : Env) (db : Db)
    (username first_name last_name email password : Option String) :
    (register lib env db username first_name last_name email password).db = db ∨
    ∃ u f l e p, (register lib env db username first_name last_name email password).db =
        db.insertUser u f l e p ∧
      ∀ v ∈ db.users, v.email ≠ e ∧ v.username ≠ u := by
  unfold register
  split
  · exact Or.inl rfl
  · split
    · exact Or.inl rfl
    · split
      · exact Or.inl rfl
      · dsimp only
        split
        · left; simp [Db.query]
        · rename_i hnone
          right
          refine ⟨str username, str first_name, str last_name, str email,
            lib.hash (str password) env.salt, by simp [Db.query], ?_⟩
          intro v hv
          have hpos := selectByEmailOrUsername_pos db (str email) (str username)
          simp only [Db.query, gt_iff_lt] at hnone
          rw [hpos] at hnone
          constructor
          · intro h; exact hnone ⟨v, hv, Or.inl h⟩
          · intro h; exact hnone ⟨v, hv, Or.inr h⟩

theorem wf_insertUser (db : Db) (u f l e p : String) (h : db.WF)
    (hfresh : ∀ v ∈ db.users, v.email ≠ e ∧ v.username ≠ u) :
    (db.insertUser u f l e p).WF := by
  obtain ⟨hlt, hpw⟩ := h
  constructor
  · intro v hv
    simp only [Db.insertUser, List.mem_append, List.mem_singleton] at hv ⊢
    rcases hv with hv | rfl
    · exact Nat.lt_succ_of_lt (hlt v hv)
    · exact Nat.lt_succ_self _
  · simp only [Db.insertUser]
    rw [List.pairwise_append]
    refine ⟨hpw, List.pairwise_singleton _ _, ?_⟩
    intro a ha b hb
    rw [List.mem_singleton] at hb
    subst hb
    exact ⟨Nat.ne_of_lt (hlt a ha), (hfresh a ha).1, (hfresh a ha).2⟩

theorem wf_map (db : Db) (g : User → User) (h : db.WF)
    (hg : ∀ v, (g v).id = v.id ∧ (g v).email = v.email ∧ (g v).username = v.username) :
    Db.WF { db with users := db.users.map g } := by
  obtain ⟨hlt, hpw⟩ := h
  constructor
  · intro v hv
    simp only [List.mem_map] at hv
    obtain ⟨w, hw, rfl⟩ := hv
    rw [(hg w).1]
    exact hlt w hw
  · show List.Pairwise User.distinct (db.users.map g)
    rw [List.pairwise_map]
    refine hpw.imp ?_
    intro a b hab
    unfold User.distinct at hab ⊢
    rw [(hg a).1, (hg a).2.1, (hg a).2.2, (hg b).1, (hg b).2.1, (hg b).2.2]
    exact hab

theorem wf_handle (lib : Lib) (env : Env) (db : Db) (c : Call) (h : db.WF) :
    (handle lib env db c).db.WF := by
  cases c with
  | register username first_name last_name email password =>
    rcases register_db_fresh lib env db username first_name last_name email password with
      e | ⟨u, f, l, e', p, e, hfresh⟩
    · show (register lib env db username first_name last_name email password).db.WF
      rw [e]; exact h
    · show (register lib env db username first_name last_name email password).db.WF
      rw [e]; exact wf_insertUser db u f l e' p h hfresh
  | login email password =>
    show (login lib env db email password).db.WF
    rw [login_db]; exact h
  | forgotPassword email =>
    show (forgotPassword env db email).db.WF
    rcases forgotPassword_db env db email with e | ⟨id, e⟩
    · rw [e]; exact h
    · rw [e]
      apply wf_map db _ h
      intro v
      by_cases c : v.id = id <;> simp [c]
  | resetPassword token newPassword =>
    show (resetPassword lib env db token newPassword).db.WF
    rcases resetPassword_db lib env db token newPassword with e | ⟨pw, id, e⟩
    · rw [e]; exact h
    · rw [e]
      apply wf_map db _ h
      intro v
      by_cases c : v.id = id <;> simp [c]

theorem wf_of_reachable (lib : Lib) (db : Db) (h : Reachable lib db) : db.WF := by
  induction h with
  | empty => exact ⟨by intro u hu; simp [Db.empty] at hu, by simp [Db.empty]⟩
  | step db env c _ ih => exact wf_handle lib env db c ih

/-- In a reachable table a record is determined by its id, by its email, and
by its username. -/
theorem unique_of_reachable (lib : Lib) (db : Db) (h : Reachable lib db) :
    ∀ u ∈ db.users, ∀ v ∈ db.users,
      (v.id = u.id ∨ v.email = u.email ∨ v.username = u.username) → v = u := by
  intro u hu v hv hsame
  by_contra hne
  have hsymm : Symmetric User.distinct := by
    intro a b hab
    exact ⟨fun e => hab.1 e.symm, fun e => hab.2.1 e.symm, fun e => hab.2.2 e.symm⟩
  have hd := (wf_of_reachable lib db h).2.forall hsymm hv hu hne
  rcases hsame with e | e | e
  · exact hd.1 e
  · exact hd.2.1 e
  · exact hd.2.2 e

/-! ## The email pattern -/

theorem matchItems_nil (s : List Char) : matchItems [] s = true ↔ s = [] := by
  cases s <;> simp [matchItems]

theorem matchItems_one (p : Char → Bool) (r : List Item) (s : List Char) :
    matchItems (Item.one p :: r) s = true ↔
      ∃ c b, s = c :: b ∧ p c = true ∧ matchItems r b = true := by
  cases s with
  | nil => simp [matchItems]
  | cons c s =>
    simp only [matchItems, Bool.and_eq_true]
    constructor
    · rintro ⟨hc, hr⟩
      exact ⟨c, s, rfl, hc, hr⟩
    · rintro ⟨x, b, hs, hx, hr⟩
      injection hs with h1 h2
      subst h1 h2
      exact ⟨hx, hr⟩

/-- A test under `+` followed by `r` matches exactly the inputs that split
into a non-empty run of characters passing the test and a rest matched by
`r`. -/
theorem matchItems_plus (p : Char → Bool) (r : List Item) (s : List Char) :
    matchItems (Item.plus p :: r) s = true ↔
      ∃ a b, s = a ++ b ∧ a ≠ [] ∧ (∀ c ∈ a, p c = true) ∧ matchItems r b = true := by
  induction s with
  | nil =>
    simp only [matchItems]
    constructor
    · intro h; cases h
    · rintro ⟨a, b, hs, ha, -, -⟩
      cases a with
      | nil => exact absurd rfl ha
      | cons x a => cases hs
  | cons c s ih =>
    simp only [matchItems, Bool.and_eq_true, Bool.or_eq_true]
    constructor
    · rintro ⟨hc, h | h⟩
      · obtain ⟨a, b, hs, -, hall, hr⟩ := ih.mp h
        refine ⟨c :: a, b, by rw [hs]; rfl, List.cons_ne_nil _ _, ?_, hr⟩
        intro x hx
        rcases List.mem_cons.mp hx with rfl | hx
        · exact hc
        · exact hall x hx
      · refine ⟨[c], s, rfl, List.cons_ne_nil _ _, ?_, h⟩
        intro x hx
        rw [List.mem_singleton] at hx
        rw [hx]; exact hc
    · rintro ⟨a, b, hs, ha, hall, hr⟩
      cases a with
      | nil => exact absurd rfl ha
      | cons x a =>
        rw [List.cons_append] at hs
        injection hs with h1 h2
        subst h1
        refine ⟨hall c (List.mem_cons_self _ _), ?_⟩
        cases a with
        | nil =>
          right
          rw [h2]; exact hr
        | cons y a =>
          left
          exact ih.mpr ⟨y :: a, b, h2, List.cons_ne_nil _ _,
            fun z hz => hall z (List.mem_cons_of_mem _ hz), hr⟩

/-- The pattern matches exactly the inputs `l ++ '@' :: d ++ '.' :: e` with
`l`, `d`, `e` non-empty runs of characters that are neither whitespace nor
the at sign. -/
theorem matchItems_emailPattern (s : List Char) :
    matchItems emailPattern s = true ↔
      ∃ l d e, s = l ++ '@' :: (d ++ '.' :: e) ∧ l ≠ [] ∧ d ≠ [] ∧ e ≠ [] ∧
        (∀ c ∈ l, notSpaceNorAt c = true) ∧ (∀ c ∈ d, notSpaceNorAt c = true) ∧
        (∀ c ∈ e, notSpaceNorAt c = true) := by
  unfold emailPattern
  constructor
  · intro h
    obtain ⟨l, b1, hs, hl, hlall, h1⟩ := (matchItems_plus _ _ _).mp h
    obtain ⟨c1, b2, hb1, hc1, h2⟩ := (matchItems_one _ _ _).mp h1
    obtain ⟨d, b3, hb2, hd, hdall, h3⟩ := (matchItems_plus _ _ _).mp h2
    obtain ⟨c2, b4, hb3, hc2, h4⟩ := (matchItems_one _ _ _).mp h3
    obtain ⟨e, b5, hb4, he, heall, h5⟩ := (matchItems_plus _ _ _).mp h4
    have hb5 := (matchItems_nil b5).mp h5
    have e1 : c1 = '@' := by simpa using hc1
    have e2 : c2 = '.' := by simpa using hc2
    subst e1 e2 hb5
    refine ⟨l, d, e, ?_, hl, hd, he, hlall, hdall, heall⟩
    rw [hs, hb1, hb2, hb3, hb4, List.append_nil]
  · rintro ⟨l, d, e, hs, hl, hd, he, hlall, hdall, heall⟩
    rw [hs]
    refine (matchItems_plus _ _ _).mpr ⟨l, _, rfl, hl, hlall, ?_⟩
    refine (matchItems_one _ _ _).mpr ⟨'@', _, rfl, by simp, ?_⟩
    refine (matchItems_plus _ _ _).mpr ⟨d, _, rfl, hd, hdall, ?_⟩
    refine (matchItems_one _ _ _).mpr ⟨'.', _, rfl, by simp, ?_⟩
    refine (matchItems_plus _ _ _).mpr ⟨e, [], (List.append_nil e).symm, he, heall, ?_⟩
    exact (matchItems_nil []).mpr rfl

theorem notSpaceNorAt_iff (c : Char) :
    notSpaceNorAt c = true ↔ isJsWhitespace c = false ∧ c ≠ '@' := by
  simp [notSpaceNorAt]

theorem count_at_email (l d e : List Char) :
    (l ++ '@' :: (d ++ '.' :: e)).count '@' =
      l.count '@' + 1 + d.count '@' + e.count '@' := by
  have h : ('.' == '@') = false := by decide
  simp only [List.count_append, List.count_cons, beq_self_eq_true, if_true, h]
  simp only [Bool.false_eq_true, if_false]
  omega

/-- C11. For every string `s`, `isValidEmail(s)` is true if and only if `s`
contains no whitespace character (the class `\s`), contains exactly one at
sign, has at least one character before the at sign, and the part after the at
sign contains a dot with at least one character before it and at least one
character after it within that part. -/
theorem isValidEmail_iff_shape (s : String) :
    isValidEmail s = true ↔
      (∀ c ∈ s.toList, isJsWhitespace c = false) ∧
      s.toList.count '@' = 1 ∧
      ∃ l r, s.toList = l ++ '@' :: r ∧ l ≠ [] ∧
        ∃ d e, r = d ++ '.' :: e ∧ d ≠ [] ∧ e ≠ [] := by
  unfold isValidEmail
  rw [matchItems_emailPattern]
  constructor
  · rintro ⟨l, d, e, hs, hl, hd, he, hlall, hdall, heall⟩
    have hnot : ∀ (x : List Char), (∀ c ∈ x, notSpaceNorAt c = true) → x.count '@' = 0 := by
      intro x hx
      rw [List.count_eq_zero]
      intro hmem
      exact ((notSpaceNorAt_iff _).mp (hx _ hmem)).2 rfl
    refine ⟨?_, ?_, l, d ++ '.' :: e, hs, hl, d, e, rfl, hd, he⟩
    · intro c hc
      rw [hs] at hc
      simp only [List.mem_append, List.mem_cons] at hc
      rcases hc with h | rfl | h | rfl | h
      · exact ((notSpaceNorAt_iff c).mp (hlall c h)).1
      · decide
      · exact ((notSpaceNorAt_iff c).mp (hdall c h)).1
      · decide
      · exact ((notSpaceNorAt_iff c).mp (heall c h)).1
    · rw [hs, count_at_email, hnot l hlall, hnot d hdall, hnot e heall]
  · rintro ⟨hws, hcount, l, r, hs, hl, d, e, hr, hd, he⟩
    subst hr
    rw [hs, count_at_email] at hcount
    have hl0 : l.count '@' = 0 := by omega
    have hd0 : d.count '@' = 0 := by omega
    have he0 : e.count '@' = 0 := by omega
    have hok : ∀ (x : List Char), x.count '@' = 0 → (∀ c ∈ x, c ∈ s.toList) →
        ∀ c ∈ x, notSpaceNorAt c = true := by
      intro x hx hsub c hc
      rw [notSpaceNorAt_iff]
      refine ⟨hws c (hsub c hc), ?_⟩
      rintro rfl
      exact (List.count_eq_zero.mp hx) hc
    refine ⟨l, d, e, hs, hl, hd, he, hok l hl0 ?_, hok d hd0 ?_, hok e he0 ?_⟩
    · intro c hc; rw [hs]; simp [hc]
    · intro c hc; rw [hs]; simp [hc]
    · intro c hc; rw [hs]; simp [hc]

/-- The pattern on sample inputs: accepted addresses, then one rejection for
each way of leaving the shape. -/
theorem isValidEmail_examples :
    isValidEmail "a@x.com" = true ∧ isValidEmail "first.last@mail.example.org" = true ∧
    isValidEmail "" = false ∧ isValidEmail "a@xcom" = false ∧
    isValidEmail "@x.com" = false ∧ isValidEmail "a@.com" = false ∧
    isValidEmail "a@x." = false ∧ isValidEmail "a@b@x.com" = false ∧
    isValidEmail "a b@x.com" = false ∧ isValidEmail "a@x.com\n" = false := by
  decide

end EVForum
